import Mathlib

/-!
Verification of the site-genie page-capture pipeline.

Shallow embedding of the TypeScript sources
src/src/tools/deconstructor.ts (scraper half: getLatestFile, getDomainFolder,
generateFilename, triggerLazyLoadedImages, waitForImages, dismissModals,
scrapeUrl, scrapeUrls) and src/src/tools/cropper.ts (subfolderToHostname,
crop).  Effectful browser calls are modelled by explicit environments that
record, for each fallible operation, whether it succeeds; the control flow
of the TypeScript (try/catch/finally, loops, early exits) is translated
into pure Lean functions over those environments.
-/

namespace SiteGenie

/-! ## Navigation controller (scrapeUrl lines 513-534, crop lines 62-74)

The source attempts page.goto with waitUntil networkidle and timeout 15000;
if that throws it retries once with waitUntil domcontentloaded and timeout
30000 and, when the fallback succeeds, applies one fixed waitForTimeout
grace wait (5000 ms in scrapeUrl, 3000 ms in crop).  If the fallback also
throws, the error propagates and the capture aborts. -/

/-- Wait strategies passed to page.goto in the source. -/
inductive WaitStrategy where
  | networkidle
  | domcontentloaded
deriving DecidableEq, Repr

/-- One attempted page.goto call: a wait strategy and its timeout in ms. -/
structure NavAttempt where
  strategy : WaitStrategy
  timeoutMs : Nat
deriving DecidableEq, Repr

/-- Environment for one navigation: whether each goto variant would
succeed on the target page. -/
structure NavEnv where
  networkidleOk : Bool
  domcontentloadedOk : Bool
deriving DecidableEq, Repr

/-- Observable outcome of the tiered navigation block: the goto calls
issued in order, the grace wait applied (if any), and which strategy
succeeded (none means both attempts threw and the error propagates). -/
structure NavTrace where
  attempts : List NavAttempt
  graceWaitMs : Option Nat
  outcome : Option WaitStrategy
deriving DecidableEq, Repr

/-- Translation of the try/catch navigation block shared by scrapeUrl and
crop, parameterised by the grace wait issued after a successful
domcontentloaded fallback. -/
def tieredNavigate (graceMs : Nat) (env : NavEnv) : NavTrace :=
  if env.networkidleOk then
    { attempts := [⟨.networkidle, 15000⟩]
      graceWaitMs := none
      outcome := some .networkidle }
  else if env.domcontentloadedOk then
    { attempts := [⟨.networkidle, 15000⟩, ⟨.domcontentloaded, 30000⟩]
      graceWaitMs := some graceMs
      outcome := some .domcontentloaded }
  else
    { attempts := [⟨.networkidle, 15000⟩, ⟨.domcontentloaded, 30000⟩]
      graceWaitMs := none
      outcome := none }

/-- Navigation block of scrapeUrl: grace wait is page.waitForTimeout(5000). -/
def scrapeNavigate : NavEnv → NavTrace := tieredNavigate 5000

/-- Navigation block of crop: grace wait is page.waitForTimeout(3000). -/
def cropNavigate : NavEnv → NavTrace := tieredNavigate 3000

/-! ## Interstitial dismissal (dismissModals, deconstructor.ts lines 287-374)

For each selector in a fixed list the source checks first-match visibility
(1 s timeout) and clicks it (2 s timeout), incrementing a counter on a
successful click; every per-selector failure is swallowed by a try/catch.
After the scan it unconditionally presses Escape and, when that press does
not throw, increments the same counter. -/

/-- Candidate selectors of dismissModals, in source order. -/
def dismissSelectors : List String :=
  [ "[class*=\"close\"]"
  , "[class*=\"Close\"]"
  , "[id*=\"close\"]"
  , "[aria-label*=\"close\" i]"
  , "[aria-label*=\"dismiss\" i]"
  , "button[title*=\"close\" i]"
  , ".modal-close"
  , ".popup-close"
  , "button:has-text(\"Accept\")"
  , "button:has-text(\"I Accept\")"
  , "button:has-text(\"I Agree\")"
  , "button:has-text(\"Accept All\")"
  , "button:has-text(\"Agree\")"
  , "button:has-text(\"OK\")"
  , "button:has-text(\"Got it\")"
  , "button:has-text(\"Continue\")"
  , "a:has-text(\"Accept\")"
  , "[id*=\"accept\"]"
  , "[class*=\"accept\"]"
  , "#onetrust-accept-btn-handler"
  , ".cookie-consent-accept"
  , "#cookie-consent-accept"
  , "[aria-label*=\"accept cookie\" i]"
  , "button:has-text(\"No thanks\")"
  , "button:has-text(\"No Thanks\")"
  , "button:has-text(\"Skip\")"
  , "button:has-text(\"Maybe Later\")"
  , "button:has-text(\"Not now\")"
  , "[role=\"dialog\"] button[aria-label*=\"close\" i]"
  , "[role=\"dialog\"] [class*=\"close\"]"
  , ".modal button[class*=\"close\"]"
  , "[aria-label*=\"Close dialog\" i]"
  , "[aria-label*=\"Close popup\" i]"
  , "button.klaviyo-close-form" ]

/-- Environment for one dismissModals run: per selector, the result of the
isVisible probe and of the click, and the result of the closing Escape
key press.  An error value models the corresponding awaited call throwing. -/
structure ModalPageEnv where
  isVisibleResult : String → Except Unit Bool
  clickResult : String → Except Unit Unit
  escapeResult : Except Unit Unit

/-- Contribution of one selector to the dismissed counter: 1 exactly when
the visibility probe returns true and the click succeeds; any throw is
caught by the per-selector try/catch and contributes 0. -/
def selectorDismissCount (env : ModalPageEnv) (sel : String) : Nat :=
  match env.isVisibleResult sel with
  | .error _ => 0
  | .ok false => 0
  | .ok true =>
    match env.clickResult sel with
    | .error _ => 0
    | .ok _ => 1

/-- Dismissed counter reported by dismissModals: the selector scan
followed by the unconditional Escape press, which also increments the
counter when it does not throw.  The function is total: every fallible
call in the source sits inside a try/catch, so the scan itself never
raises. -/
def dismissModals (env : ModalPageEnv) : Nat :=
  dismissSelectors.foldl (fun acc sel => acc + selectorDismissCount env sel) 0 +
    (match env.escapeResult with
     | .ok _ => 1
     | .error _ => 0)

/-- Concrete page with zero interstitials: every visibility probe returns
false, clicks would succeed, and the Escape press succeeds. -/
def noModalsEnv : ModalPageEnv :=
  { isVisibleResult := fun _ => .ok false
    clickResult := fun _ => .ok ()
    escapeResult := .ok () }

/-! ## Lazy-load scroll sweep (triggerLazyLoadedImages, lines 204-229)

The in-page script starts at position 0 and, while the current position
is below the current scroll height, scrolls there, adds 500, waits
100 ms, and re-reads the scroll height.  A page is modelled by the
sequence of heights the script reads: height i is the value of
document.documentElement.scrollHeight observed after increment i. -/

/-- Fixed scroll increment of the sweep (const scrollStep = 500). -/
def scrollStep : Nat := 500

/-- Fuelled translation of the while loop of triggerLazyLoadedImages:
argument i counts completed increments, pos is currentPosition.  Returns
the final position when the loop exits within the given fuel, none
otherwise. -/
def scrollLoop (height : Nat → Nat) : Nat → Nat → Nat → Option Nat
  | 0, _, _ => none
  | fuel + 1, i, pos =>
    if pos < height i then scrollLoop height fuel (i + 1) (pos + scrollStep)
    else some pos

/-- The sweep terminates on a page exactly when its while loop exits after
finitely many increments. -/
def sweepTerminates (height : Nat → Nat) : Prop :=
  ∃ fuel, (scrollLoop height fuel 0 0).isSome

/-- Adversarial page whose reported scroll height grows by one full
scroll step at every re-measurement, staying one step ahead of the
current position forever. -/
def growingHeights (i : Nat) : Nat := scrollStep * i + scrollStep

/-! ## Image-load verification (waitForImages, lines 234-282)

The injected promise polls every pollInterval = 200 ms: it resolves when
the page has no visible images, when every visible image is complete
with positive natural height, or when the elapsed time strictly exceeds
the timeout; otherwise it schedules the next poll.  A page is modelled
by the visible-image count and the all-loaded flag observed at each
poll; poll k happens at elapsed time 200 * k ms. -/

/-- Poll interval of the image checker (setTimeout(checkImages, 200)). -/
def pollIntervalMs : Nat := 200

/-- Environment for one waitForImages run: what the DOM queries of poll k
observe. -/
structure ImagePollEnv where
  visibleCount : Nat → Nat
  allLoaded : Nat → Bool

/-- Fuelled translation of the checkImages recursion: returns the index
of the poll at which the promise resolves, none if fuel runs out first. -/
def checkImagesLoop (env : ImagePollEnv) (timeout : Nat) : Nat → Nat → Option Nat
  | 0, _ => none
  | fuel + 1, k =>
    if env.visibleCount k = 0 then some k
    else if env.allLoaded k || decide (pollIntervalMs * k > timeout) then some k
    else checkImagesLoop env timeout fuel (k + 1)

/-- waitForImages: the polling promise started at poll 0.  The fuel
timeout / 200 + 2 is shown sufficient for every environment, so the
option is always some. -/
def waitForImages (env : ImagePollEnv) (timeout : Nat) : Option Nat :=
  checkImagesLoop env timeout (timeout / pollIntervalMs + 2) 0

/-- Page with one visible image that never finishes loading. -/
def brokenImageEnv : ImagePollEnv :=
  { visibleCount := fun _ => 1
    allLoaded := fun _ => false }

/-- Page with no visible images at the first poll. -/
def noImagesEnv : ImagePollEnv :=
  { visibleCount := fun _ => 0
    allLoaded := fun _ => true }

/-! ## Component crop loop (crop, cropper.ts lines 79-100)

For each manifest component the source skips entries without a
cssSelector, and otherwise runs locator lookup, a 5 s visibility wait,
scroll-into-view, a settle wait and an element screenshot inside one
try/catch whose handler logs a warning and falls through to the next
component.  The file name.png is written exactly when every step of that
body succeeds. -/

/-- Manifest entry consumed by the crop loop (name plus optional
cssSelector; other manifest fields are ignored by the loop). -/
structure ManifestComponent where
  name : String
  cssSelector : Option String
deriving DecidableEq, Repr

/-- Environment for one crop run: per selector, whether the visibility
wait, the scroll-into-view and the element screenshot succeed. -/
structure CropPageEnv where
  waitForVisibleOk : String → Bool
  scrollIntoViewOk : String → Bool
  screenshotOk : String → Bool

/-- Files written for a single component: name.png exactly when the
component has a selector and no step of the per-component try block
throws; otherwise nothing (the catch only logs). -/
def componentOutput (env : CropPageEnv) (c : ManifestComponent) : List String :=
  match c.cssSelector with
  | none => []
  | some sel =>
    if env.waitForVisibleOk sel && env.scrollIntoViewOk sel && env.screenshotOk sel
    then [c.name ++ ".png"] else []

/-- Files written by the crop loop over a component list, in order. -/
def cropComponentFiles (env : CropPageEnv) : List ManifestComponent → List String
  | [] => []
  | c :: rest => componentOutput env c ++ cropComponentFiles env rest

/-- Page on which only the selector body is visible within the 5 s
wait; all later per-element steps succeed. -/
def missingBodyEnv : CropPageEnv :=
  { waitForVisibleOk := fun s => s == "body"
    scrollIntoViewOk := fun _ => true
    screenshotOk := fun _ => true }

/-- Component A of the claim: selector .missing matches nothing. -/
def componentA : ManifestComponent := ⟨"A", some ".missing"⟩

/-- Component B of the claim: selector body. -/
def componentB : ManifestComponent := ⟨"B", some "body"⟩

/-! ## Multi-URL batch (scrapeUrls, deconstructor.ts lines 596-610)

The source iterates the URL list in order awaiting scrapeUrl on each; a
throw is logged and rethrown, aborting the loop; on success results are
accumulated in order and returned. -/

/-- Translation of scrapeUrls, parameterised by the behaviour of
scrapeUrl on each URL.  Returns the list of URLs actually attempted, in
order, together with either the accumulated results or the first error. -/
def scrapeUrls {R : Type} (f : String → Except Unit R) :
    List String → List String × Except Unit (List R)
  | [] => ([], .ok [])
  | u :: rest =>
    match f u with
    | .ok r =>
      let step := scrapeUrls f rest
      (u :: step.1,
       match step.2 with
       | .ok rs => .ok (r :: rs)
       | .error e => .error e)
    | .error e => ([u], .error e)

/-! ## Hostname and filename encodings -/

/-- Parsed URL pieces used by the scraper (new URL(url).hostname and
.pathname). -/
structure UrlParts where
  hostname : String
  pathname : String
deriving DecidableEq, Repr

/-- Global single-character replacement, the meaning of
String.prototype.replace with a one-character global pattern. -/
def replaceChar (a b : Char) (s : String) : String :=
  ⟨s.data.map fun c => if c = a then b else c⟩

/-- getDomainFolder (deconstructor.ts lines 174-177): hostname with every
dot replaced by a hyphen. -/
def getDomainFolder (u : UrlParts) : String :=
  replaceChar '.' '-' u.hostname

/-- subfolderToHostname (cropper.ts lines 24-26): folder name with every
hyphen replaced by a dot. -/
def subfolderToHostname (s : String) : String :=
  replaceChar '-' '.' s

/-! ## Browser lifecycle (scrapeUrl lines 496-591, crop lines 55-103)

scrapeUrl launches the browser and runs everything else inside
try/catch/finally with browser.close() in the finally, so the close runs
on every exit path after launch.  crop launches the browser, then calls
createStealthContext BEFORE entering its try/finally: when context
creation throws, the function exits without ever reaching the finally
and the browser process is never closed.  Each effectful stage is one
item of a step list: the events it issues and whether it succeeds;
stages whose internal failures are swallowed in the source (load-state
wait, readiness stages, the per-component crop loop) are modelled as
always succeeding at this level. -/

/-- Observable events of a capture run. -/
inductive PipelineEvent where
  | launchBrowser
  | createContext
  | newPage
  | setReferer
  | goto (strategy : WaitStrategy)
  | readiness
  | captureHtml
  | writeHtml
  | captureScreenshot
  | closeContext
  | componentLoop
  | closeBrowser
deriving DecidableEq, Repr

/-- Runs a list of stages in order: each stage logs its events; the
first failing stage throws, skipping the rest. -/
def runSteps : List (List PipelineEvent × Bool) → List PipelineEvent × Except Unit Unit
  | [] => ([], .ok ())
  | (es, succeeded) :: rest =>
    if succeeded then
      let step := runSteps rest
      (es ++ step.1, step.2)
    else (es, .error ())

/-- Events of the tiered navigation block: the goto calls it issues. -/
def navEvents (graceMs : Nat) (env : NavEnv) : List PipelineEvent :=
  (tieredNavigate graceMs env).attempts.map fun a => .goto a.strategy

/-- Environment for a whole capture run: whether each fallible stage
succeeds. -/
structure PipelineEnv where
  contextOk : Bool
  newPageOk : Bool
  setRefererOk : Bool
  nav : NavEnv
  readinessOk : Bool
  captureHtmlOk : Bool
  writeHtmlOk : Bool
  screenshotOk : Bool
  closeContextOk : Bool
deriving DecidableEq, Repr

/-- Stages inside the try block of scrapeUrl, in source order. -/
def scrapeBodySteps (env : PipelineEnv) : List (List PipelineEvent × Bool) :=
  [ ([.createContext], env.contextOk)
  , ([.newPage], env.newPageOk)
  , ([.setReferer], env.setRefererOk)
  , (navEvents 5000 env.nav, (tieredNavigate 5000 env.nav).outcome.isSome)
  , ([.readiness], env.readinessOk)
  , ([.captureHtml], env.captureHtmlOk)
  , ([.writeHtml], env.writeHtmlOk)
  , ([.captureScreenshot], env.screenshotOk)
  , ([.closeContext], env.closeContextOk) ]

/-- scrapeUrl after a successful launch: try body, then finally
browser.close() — the close event is issued regardless of the body
outcome, and the catch rethrows the body error. -/
def scrapeUrlRun (env : PipelineEnv) : List PipelineEvent × Except Unit Unit :=
  let body := runSteps (scrapeBodySteps env)
  (.launchBrowser :: body.1 ++ [.closeBrowser], body.2)

/-- Stages inside the try block of crop, in source order.  The
per-component loop catches every per-item error, so it never throws. -/
def cropBodySteps (env : PipelineEnv) : List (List PipelineEvent × Bool) :=
  [ ([.newPage], env.newPageOk)
  , (navEvents 3000 env.nav, (tieredNavigate 3000 env.nav).outcome.isSome)
  , ([.readiness], env.readinessOk)
  , ([.componentLoop], true) ]

/-- crop after a successful launch: createStealthContext runs before the
try/finally, so a context-creation failure exits without issuing
closeBrowser; otherwise the finally closes the browser on every path. -/
def cropRun (env : PipelineEnv) : List PipelineEvent × Except Unit Unit :=
  if env.contextOk then
    let body := runSteps (cropBodySteps env)
    (.launchBrowser :: .createContext :: body.1 ++ [.closeBrowser], body.2)
  else
    ([.launchBrowser, .createContext], .error ())

/-- Run in which context creation throws. -/
def contextFailureEnv : PipelineEnv :=
  { contextOk := false
    newPageOk := true
    setRefererOk := true
    nav := ⟨true, true⟩
    readinessOk := true
    captureHtmlOk := true
    writeHtmlOk := true
    screenshotOk := true
    closeContextOk := true }

/-- Run in which every stage succeeds. -/
def allStagesOkEnv : PipelineEnv :=
  { contextOk := true
    newPageOk := true
    setRefererOk := true
    nav := ⟨true, true⟩
    readinessOk := true
    captureHtmlOk := true
    writeHtmlOk := true
    screenshotOk := true
    closeContextOk := true }

/-! ## Timestamped filenames (generateFilename lines 182-187,
getLatestFile lines 12-29)

generateFilename builds path_timestamp where path is the URL pathname
with every slash turned into an underscore and every other character
outside [a-zA-Z0-9_-] removed, and timestamp is
new Date().toISOString() with every colon and dot replaced by a hyphen.
A UTC instant is embedded as its calendar decomposition (the fields the
Date object renders); instants are ordered field-lexicographically,
which is the chronological order of the underlying epoch milliseconds.
toISOString renders the fixed-width 24-character form
YYYY-MM-DDTHH:MM:SS.mmmZ. -/

/-- Decimal digit character of n mod 10. -/
def digitChar (n : Nat) : Char :=
  match n % 10 with
  | 0 => '0'
  | 1 => '1'
  | 2 => '2'
  | 3 => '3'
  | 4 => '4'
  | 5 => '5'
  | 6 => '6'
  | 7 => '7'
  | 8 => '8'
  | _ => '9'

/-- Fixed-width zero-padded decimal rendering, most significant digit
first. -/
def padDigits : Nat → Nat → List Char
  | 0, _ => []
  | w + 1, n => digitChar (n / 10 ^ w) :: padDigits w (n % 10 ^ w)

/-- UTC instant as rendered by Date.prototype.toISOString. -/
structure DateTime where
  year : Nat
  month : Nat
  day : Nat
  hour : Nat
  minute : Nat
  second : Nat
  millisecond : Nat
deriving DecidableEq, Repr

/-- Field bounds under which each field fits its rendered width (true
calendar instants satisfy much tighter bounds). -/
def DateTime.valid (t : DateTime) : Prop :=
  t.year < 10000 ∧ t.month < 100 ∧ t.day < 100 ∧ t.hour < 100 ∧
    t.minute < 100 ∧ t.second < 100 ∧ t.millisecond < 1000

instance (t : DateTime) : Decidable t.valid := by
  unfold DateTime.valid
  infer_instance

/-- Chronological order on instants: lexicographic on the calendar
fields, most significant first. -/
def dtLt (a b : DateTime) : Prop :=
  a.year < b.year ∨ (a.year = b.year ∧
    (a.month < b.month ∨ (a.month = b.month ∧
      (a.day < b.day ∨ (a.day = b.day ∧
        (a.hour < b.hour ∨ (a.hour = b.hour ∧
          (a.minute < b.minute ∨ (a.minute = b.minute ∧
            (a.second < b.second ∨ (a.second = b.second ∧
              a.millisecond < b.millisecond)))))))))))

instance (a b : DateTime) : Decidable (dtLt a b) := by
  unfold dtLt
  infer_instance

/-- Character list of the ISO-8601 string YYYY-MM-DDTHH:MM:SS.mmmZ. -/
def toISOStringData (t : DateTime) : List Char :=
  padDigits 4 t.year ++ '-' :: padDigits 2 t.month ++ '-' :: padDigits 2 t.day ++
    'T' :: padDigits 2 t.hour ++ ':' :: padDigits 2 t.minute ++
      ':' :: padDigits 2 t.second ++ '.' :: padDigits 3 t.millisecond ++ ['Z']

/-- new Date(...).toISOString(). -/
def toISOString (t : DateTime) : String :=
  ⟨toISOStringData t⟩

/-- Replacement applied by .replace with the global class of colon and
dot and the replacement hyphen. -/
def sanitizeTimeChar (c : Char) : Char :=
  if c = ':' ∨ c = '.' then '-' else c

/-- Timestamp after the colon-and-dot-to-hyphen replacement. -/
def timestampSanitize (s : String) : String :=
  ⟨s.data.map sanitizeTimeChar⟩

/-- Sanitized timestamp written out directly:
YYYY-MM-DDTHH-MM-SS-mmmZ. -/
def sanitizedTimestampData (t : DateTime) : List Char :=
  padDigits 4 t.year ++ '-' :: padDigits 2 t.month ++ '-' :: padDigits 2 t.day ++
    'T' :: padDigits 2 t.hour ++ '-' :: padDigits 2 t.minute ++
      '-' :: padDigits 2 t.second ++ '-' :: padDigits 3 t.millisecond ++ ['Z']

/-- Filename-safe characters, the class [a-zA-Z0-9_-] kept by the second
replace of generateFilename. -/
def isFilenameSafe (c : Char) : Bool :=
  decide (('a' ≤ c ∧ c ≤ 'z') ∨ ('A' ≤ c ∧ c ≤ 'Z') ∨ ('0' ≤ c ∧ c ≤ '9') ∨
    c = '_' ∨ c = '-')

/-- Pathname sanitization of generateFilename: slashes to underscores,
then unsafe characters removed. -/
def sanitizePathData (p : List Char) : List Char :=
  (p.map fun c => if c = '/' then '_' else c).filter isFilenameSafe

/-- generateFilename: sanitized pathname, underscore, sanitized
timestamp of the capture instant. -/
def generateFilename (u : UrlParts) (now : DateTime) : String :=
  ⟨sanitizePathData u.pathname.data⟩ ++ "_" ++ timestampSanitize (toISOString now)

/-- Path of the captured HTML artifact
(cwd/output/domain/html/filename.html). -/
def htmlPath (cwd : String) (u : UrlParts) (now : DateTime) : String :=
  cwd ++ "/output/" ++ getDomainFolder u ++ "/html/" ++ generateFilename u now ++ ".html"

/-- Path of the captured screenshot artifact
(cwd/output/domain/screenshots/filename.png). -/
def screenshotPath (cwd : String) (u : UrlParts) (now : DateTime) : String :=
  cwd ++ "/output/" ++ getDomainFolder u ++ "/screenshots/" ++
    generateFilename u now ++ ".png"

/-- getLatestFile: keep the files of the directory listing whose names
end with the extension, prefix the directory path, sort, and return the
last element; none when nothing matches.  The default JavaScript sort
compares strings, embedded here as a merge sort by string order; the
ends-with test is the suffix test on the character data. -/
def getLatestFile (dirPath : String) (files : List String) (extension : String) :
    Option String :=
  let matchingFiles :=
    (files.filter fun f => decide (extension.data <:+ f.data)).map
      fun f => dirPath ++ "/" ++ f
  if matchingFiles.isEmpty then none
  else (matchingFiles.mergeSort fun a b => decide (a ≤ b)).getLast?

/-- Concrete URL for witnesses. -/
def exampleUrl : UrlParts := ⟨"example.com", "/about"⟩

/-- Concrete capture instant. -/
def captureInstantA : DateTime := ⟨2024, 5, 6, 7, 8, 9, 10⟩

/-- Concrete capture instant one millisecond later. -/
def captureInstantB : DateTime := ⟨2024, 5, 6, 7, 8, 9, 11⟩

end SiteGenie

namespace SiteGenie

/-- Claim C1 (counterexample): on a page where the networkidle attempt
throws and the domcontentloaded fallback succeeds, the crop navigation
block applies a grace wait of 3000 ms, not the 5000 ms the claim states
for every navigation attempt. -/
theorem C1_crop_grace_counterexample :
    (cropNavigate ⟨false, true⟩).graceWaitMs = some 3000 ∧
      (some 3000 : Option Nat) ≠ some 5000 := by
  decide

/-- Claim C1 (amended): in both scrapeUrl and crop the controller first
attempts networkidle with a 15 s timeout; exactly when that attempt
throws it retries once with domcontentloaded and a 30 s timeout; after a
successful fallback it applies one fixed grace wait — 5 s in scrapeUrl
but 3 s in crop; no strategy is attempted twice; and if both attempts
throw the navigation reports failure and the error propagates. -/
theorem C1_tiered_navigation (env : NavEnv) :
    (scrapeNavigate env).attempts =
      (if env.networkidleOk then [⟨.networkidle, 15000⟩]
       else [⟨.networkidle, 15000⟩, ⟨.domcontentloaded, 30000⟩]) ∧
    (cropNavigate env).attempts = (scrapeNavigate env).attempts ∧
    (scrapeNavigate env).graceWaitMs =
      (if env.networkidleOk then none
       else if env.domcontentloadedOk then some 5000 else none) ∧
    (cropNavigate env).graceWaitMs =
      (if env.networkidleOk then none
       else if env.domcontentloadedOk then some 3000 else none) ∧
    (scrapeNavigate env).outcome =
      (if env.networkidleOk then some .networkidle
       else if env.domcontentloadedOk then some .domcontentloaded else none) ∧
    (cropNavigate env).outcome = (scrapeNavigate env).outcome ∧
    (scrapeNavigate env).attempts.Nodup ∧
    (cropNavigate env).attempts.Nodup := by
  rcases env with ⟨ni, dom⟩
  cases ni <;> cases dom <;> decide

/-- Claim C2 (counterexample): on a page with zero interstitials (every
visibility probe reports false) the dismissal scan completes and reports
a count of 1, not 0 — the unconditional Escape press increments the
counter whenever it does not throw. -/
theorem C2_zero_interstitials_counterexample :
    dismissModals noModalsEnv = 1 ∧ (1 : Nat) ≠ 0 := by
  constructor
  · rfl
  · decide

/-- Claim C2 (amended): on a page with zero interstitials (no candidate
selector reports visible) the dismissal scan completes without raising
and reports a count of 1 when the closing Escape press succeeds, 0 only
when that press itself throws. -/
theorem C2_zero_interstitials (env : ModalPageEnv)
    (h : ∀ sel ∈ dismissSelectors, env.isVisibleResult sel ≠ .ok true) :
    dismissModals env =
      (match env.escapeResult with
       | .ok _ => 1
       | .error _ => 0) := by
  have hsel : ∀ sel ∈ dismissSelectors, selectorDismissCount env sel = 0 := by
    intro sel hmem
    unfold selectorDismissCount
    rcases hv : env.isVisibleResult sel with e | b
    · rfl
    · cases b
      · rfl
      · exact absurd hv (h sel hmem)
  have hfold : ∀ (l : List String), (∀ sel ∈ l, selectorDismissCount env sel = 0) →
      l.foldl (fun acc sel => acc + selectorDismissCount env sel) 0 = 0 := by
    intro l
    induction l with
    | nil => intro _; rfl
    | cons a t ih =>
      intro hl
      have ha := hl a (List.mem_cons_self a t)
      simp only [List.foldl_cons, ha, Nat.add_zero]
      exact ih fun sel hs => hl sel (List.mem_cons_of_mem a hs)
  unfold dismissModals
  rw [hfold dismissSelectors hsel, Nat.zero_add]

/-- Claim C2 witness: the amended statement evaluated on the concrete
zero-interstitial page. -/
theorem C2_zero_interstitials_witness :
    dismissModals noModalsEnv =
      (match noModalsEnv.escapeResult with
       | .ok _ => 1
       | .error _ => 0) :=
  C2_zero_interstitials noModalsEnv (fun _ _ => by
    simp [noModalsEnv])

/-- Helper for claim C3: against the ever-growing page the loop invariant
pos = scrollStep * i persists, so the loop condition never becomes false
and every finite fuel is exhausted. -/
theorem scrollLoop_growing_none (fuel : Nat) :
    ∀ i, scrollLoop growingHeights fuel i (scrollStep * i) = none := by
  induction fuel with
  | zero => intro i; rfl
  | succ f ih =>
    intro i
    have hcond : scrollStep * i < growingHeights i := by
      unfold growingHeights scrollStep
      omega
    have hpos : scrollStep * i + scrollStep = scrollStep * (i + 1) := by
      ring
    simp only [scrollLoop, if_pos hcond, hpos]
    exact ih (i + 1)

/-- Helper for claim C3: once the remaining fuel can push the position
past the bound B on every reported height, the loop exits. -/
theorem scrollLoop_bounded_some {height : Nat → Nat} {B : Nat}
    (hB : ∀ i, height i ≤ B) :
    ∀ fuel i pos, B ≤ scrollStep * fuel + pos →
      (scrollLoop height (fuel + 1) i pos).isSome := by
  intro fuel
  induction fuel with
  | zero =>
    intro i pos h
    have hc : ¬ pos < height i := by
      have := hB i
      unfold scrollStep at h
      omega
    simp [scrollLoop, hc]
  | succ f ih =>
    intro i pos h
    by_cases hc : pos < height i
    · simp only [scrollLoop, if_pos hc]
      exact ih (i + 1) (pos + scrollStep) (by unfold scrollStep at h ⊢; omega)
    · simp [scrollLoop, hc]

/-- Claim C3 (counterexample): the lazy-load sweep does not terminate on
every page — on the page whose reported scroll height grows by a full
scroll step at each re-measurement, the loop never reaches a state where
the current position is at or past the current height. -/
theorem C3_growing_page_counterexample : ¬ sweepTerminates growingHeights := by
  rintro ⟨fuel, hs⟩
  have h := scrollLoop_growing_none fuel 0
  rw [Nat.mul_zero] at h
  rw [h] at hs
  exact Bool.false_ne_true hs

/-- Claim C3 (amended): the sweep terminates on every page whose reported
scroll height stays bounded; re-reading the current height at each step
does not by itself guarantee termination when the height can keep
growing by at least the scroll step per increment. -/
theorem C3_bounded_sweep_terminates (height : Nat → Nat) (B : Nat)
    (hB : ∀ i, height i ≤ B) : sweepTerminates height :=
  ⟨B + 1, scrollLoop_bounded_some hB B 0 0 (by unfold scrollStep; omega)⟩

/-- Claim C3 witness: the amended statement on a page of constant height
1000. -/
theorem C3_bounded_sweep_witness : sweepTerminates (fun _ => 1000) :=
  C3_bounded_sweep_terminates (fun _ => 1000) 1000 (fun _ => Nat.le_refl 1000)

/-- Helper for claim C4: from any poll index within budget the checker
resolves at some poll index at most timeout / 200 + 1. -/
theorem checkImagesLoop_resolves (env : ImagePollEnv) (t : Nat) :
    ∀ fuel k, k + fuel = t / pollIntervalMs + 2 → k ≤ t / pollIntervalMs + 1 →
      ∃ j, checkImagesLoop env t fuel k = some j ∧ j ≤ t / pollIntervalMs + 1 := by
  intro fuel
  induction fuel with
  | zero =>
    intro k hk hkle
    omega
  | succ f ih =>
    intro k hk hkle
    by_cases h0 : env.visibleCount k = 0
    · exact ⟨k, by simp [checkImagesLoop, h0], hkle⟩
    · by_cases h1 : (env.allLoaded k || decide (pollIntervalMs * k > t)) = true
      · exact ⟨k, by simp [checkImagesLoop, h0, h1], hkle⟩
      · have hkd : pollIntervalMs * k ≤ t := by
          have h2 : decide (pollIntervalMs * k > t) = false := by
            rcases Bool.or_eq_false_iff.mp (Bool.eq_false_iff.mpr h1) with ⟨_, h2⟩
            exact h2
          simpa using h2
        have hkle2 : k + 1 ≤ t / pollIntervalMs + 1 := by
          unfold pollIntervalMs at hkd ⊢
          omega
        obtain ⟨j, hj, hjle⟩ := ih (k + 1) (by omega) hkle2
        refine ⟨j, ?_, hjle⟩
        simp only [checkImagesLoop, if_neg h0, h1, if_false]
        exact hj

/-- Claim C4: for every page and timeout, image-load verification
resolves (never raises), at a poll index at most timeout / 200 + 1 — so
at most ceil(timeout / 200) + 1 polls complete before the resolving one —
within elapsed time timeout + 200 ms, and a page with zero visible
images resolves at the very first poll. -/
theorem C4_waitForImages_resolves (env : ImagePollEnv) (t : Nat) :
    ∃ k, waitForImages env t = some k ∧
      k ≤ t / pollIntervalMs + 1 ∧
      pollIntervalMs * k ≤ t + pollIntervalMs ∧
      (env.visibleCount 0 = 0 → k = 0) := by
  by_cases h0 : env.visibleCount 0 = 0
  · refine ⟨0, ?_, Nat.zero_le _, by unfold pollIntervalMs; omega, fun _ => rfl⟩
    show checkImagesLoop env t (t / pollIntervalMs + 1 + 1) 0 = some 0
    simp [checkImagesLoop, h0]
  · obtain ⟨j, hj, hjle⟩ :=
      checkImagesLoop_resolves env t (t / pollIntervalMs + 2) 0 (Nat.zero_add _)
        (Nat.zero_le _)
    refine ⟨j, hj, hjle, ?_, fun hv => absurd hv h0⟩
    unfold pollIntervalMs at hjle ⊢
    omega

/-- Claim C5: the crop loop is per-component: the files written for a
list are the per-component files in order, a component with no selector,
a selector that never becomes visible, or a failing screenshot writes
nothing, and on the two-component instance of the claim exactly B.png is
written. -/
theorem C5_crop_partial_failure (env : CropPageEnv) (c : ManifestComponent)
    (cs : List ManifestComponent) :
    cropComponentFiles env (c :: cs) =
      componentOutput env c ++ cropComponentFiles env cs ∧
    (c.cssSelector = none → componentOutput env c = []) ∧
    (∀ sel, c.cssSelector = some sel → env.waitForVisibleOk sel = false →
      componentOutput env c = []) ∧
    (∀ sel, c.cssSelector = some sel → env.screenshotOk sel = false →
      componentOutput env c = []) ∧
    cropComponentFiles missingBodyEnv [componentA, componentB] = ["B.png"] := by
  refine ⟨rfl, ?_, ?_, ?_, by decide⟩
  · intro hnone
    unfold componentOutput
    rw [hnone]
  · intro sel hsel hwait
    unfold componentOutput
    rw [hsel]
    simp [hwait]
  · intro sel hsel hshot
    unfold componentOutput
    rw [hsel]
    simp [hshot]

/-- Claim C5 witness: the theorem instantiated on the claim input, with
the failing-selector hypothesis discharged on component A. -/
theorem C5_crop_partial_failure_witness :
    cropComponentFiles missingBodyEnv [componentA, componentB] = ["B.png"] ∧
    componentOutput missingBodyEnv componentA = [] :=
  ⟨(C5_crop_partial_failure missingBodyEnv componentA [componentB]).2.2.2.2,
   (C5_crop_partial_failure missingBodyEnv componentA [componentB]).2.2.1
      ".missing" rfl (by decide)⟩

/-- Claim C8: scrapeUrls visits its URL list strictly in input order:
when every scrape succeeds it attempts every URL and returns one result
per URL in order, and when some URL fails (all URLs before it
succeeding) it attempts exactly the URLs up to and including the failing
one and rethrows the error, returning no accumulated results. -/
theorem C8_scrapeUrls_fail_fast {R : Type} (g : String → R)
    (f : String → Except Unit R) (urls pre post : List String) (u : String)
    (hpre : ∀ v ∈ pre, ∃ r, f v = .ok r) (hu : f u = .error ()) :
    scrapeUrls (fun v => .ok (g v)) urls = (urls, .ok (urls.map g)) ∧
    scrapeUrls f (pre ++ u :: post) = (pre ++ [u], .error ()) := by
  constructor
  · induction urls with
    | nil => rfl
    | cons v rest ih =>
      simp only [scrapeUrls, ih, List.map_cons]
  · induction pre with
    | nil =>
      simp only [List.nil_append, scrapeUrls, hu]
    | cons v rest ih =>
      obtain ⟨r, hr⟩ := hpre v (List.mem_cons_self v rest)
      have hrest : ∀ w ∈ rest, ∃ s, f w = .ok s := fun w hw =>
        hpre w (List.mem_cons_of_mem v hw)
      show scrapeUrls f (v :: (rest ++ u :: post)) = ((v :: rest) ++ [u], .error ())
      simp only [scrapeUrls, hr, ih hrest, List.cons_append]

/-- Claim C8 witness: the theorem evaluated on a concrete batch where
the URL bad fails after the URL a succeeds. -/
theorem C8_scrapeUrls_fail_fast_witness :
    scrapeUrls (fun v => .ok (String.length v)) ["x", "yy"] =
      (["x", "yy"], .ok [1, 2]) ∧
    scrapeUrls (fun v => if v == "bad" then .error () else .ok 0)
        (["a"] ++ "bad" :: ["c"]) = (["a"] ++ ["bad"], .error ()) :=
  C8_scrapeUrls_fail_fast String.length
    (fun v => if v == "bad" then .error () else .ok 0)
    ["x", "yy"] ["a"] ["c"] "bad"
    (fun v hv => ⟨0, by
      rcases List.mem_singleton.mp hv with rfl
      rfl⟩)
    rfl

/-- Helper: a list map that returns the list unchanged fixes every
member. -/
theorem map_fix_of_map_eq {α : Type} {f : α → α} :
    ∀ {l : List α}, l.map f = l → ∀ c ∈ l, f c = c := by
  intro l
  induction l with
  | nil => intro _ c hc; cases hc
  | cons a t ih =>
    intro h c hc
    rw [List.map_cons, List.cons.injEq] at h
    rcases List.mem_cons.mp hc with rfl | hct
    · exact h.1
    · exact ih h.2 c hct

/-- Claim C9: the dot-to-hyphen folder encoding is inverted by the
hyphen-to-dot decoding exactly on hyphen-free hostnames; a hostname
containing a hyphen round-trips to a different hostname, so the cropper
reconstructs a different host than the one scraped. -/
theorem C9_hostname_roundtrip (u : UrlParts) :
    ((∀ c ∈ u.hostname.data, c ≠ '-') →
      subfolderToHostname (getDomainFolder u) = u.hostname) ∧
    ('-' ∈ u.hostname.data →
      subfolderToHostname (getDomainFolder u) ≠ u.hostname) := by
  have hdata : (subfolderToHostname (getDomainFolder u)).data =
      u.hostname.data.map
        ((fun c => if c = '-' then '.' else c) ∘ fun c => if c = '.' then '-' else c) := by
    simp [subfolderToHostname, getDomainFolder, replaceChar, List.map_map]
  constructor
  · intro hfree
    apply String.ext
    rw [hdata]
    have : ∀ c ∈ u.hostname.data,
        ((fun c => if c = '-' then '.' else c) ∘ fun c => if c = '.' then '-' else c) c
          = id c := by
      intro c hc
      by_cases hdot : c = '.'
      · simp [hdot, Function.comp]
      · simp [Function.comp, hdot, hfree c hc]
    rw [List.map_congr_left this, List.map_id]
  · intro hmem heq
    have h2 : u.hostname.data.map
        ((fun c => if c = '-' then '.' else c) ∘ fun c => if c = '.' then '-' else c)
          = u.hostname.data := by
      rw [← hdata, heq]
    have hbad := map_fix_of_map_eq h2 '-' hmem
    simp [Function.comp] at hbad

/-- Claim C9 witness: round trip on the hyphen-free hostname
www.example.com and on the hyphenated hostname my-site.com. -/
theorem C9_hostname_roundtrip_witness :
    subfolderToHostname (getDomainFolder ⟨"www.example.com", "/"⟩) =
      "www.example.com" ∧
    subfolderToHostname (getDomainFolder ⟨"my-site.com", "/"⟩) ≠ "my-site.com" :=
  ⟨(C9_hostname_roundtrip ⟨"www.example.com", "/"⟩).1 (by decide),
   (C9_hostname_roundtrip ⟨"my-site.com", "/"⟩).2 (by decide)⟩

/-- Claim C7 (counterexample): in crop, when context creation throws
after the browser has been launched, the run ends in error without ever
issuing browser.close — the launched browser process is leaked. -/
theorem C7_crop_context_leak_counterexample :
    PipelineEvent.closeBrowser ∉ (cropRun contextFailureEnv).1 ∧
      (cropRun contextFailureEnv).2 = .error () :=
  ⟨by decide, rfl⟩

/-- Claim C7 (amended): scrapeUrl closes the launched browser on every
exit path (its try/finally covers everything after the launch, context
creation included); crop closes it on every exit path except the one
where createStealthContext itself throws, since that call precedes the
try/finally. -/
theorem C7_browser_closed (env : PipelineEnv) :
    PipelineEvent.closeBrowser ∈ (scrapeUrlRun env).1 ∧
    (env.contextOk = true → PipelineEvent.closeBrowser ∈ (cropRun env).1) := by
  constructor
  · simp [scrapeUrlRun]
  · intro hctx
    simp [cropRun, hctx]

/-- Claim C7 witness: both close guarantees on the all-stages-succeed
run. -/
theorem C7_browser_closed_witness :
    PipelineEvent.closeBrowser ∈ (scrapeUrlRun allStagesOkEnv).1 ∧
    PipelineEvent.closeBrowser ∈ (cropRun allStagesOkEnv).1 :=
  ⟨(C7_browser_closed allStagesOkEnv).1, (C7_browser_closed allStagesOkEnv).2 rfl⟩

/-- Helper: digit rendering is strictly monotone on single digits. -/
theorem digitChar_bound_lt : ∀ a < 10, ∀ b < 10, a < b → digitChar a < digitChar b := by
  decide

/-- Helper: every rendered digit lies between the characters 0 and 9. -/
theorem digitChar_digit (n : Nat) : '0' ≤ digitChar n ∧ digitChar n ≤ '9' := by
  have hd : digitChar n = digitChar (n % 10) := by
    unfold digitChar
    have hmm : n % 10 % 10 = n % 10 := by omega
    rw [hmm]
  have h : n % 10 < 10 := Nat.mod_lt _ (by decide)
  rw [hd]
  exact (by decide : ∀ k < 10, '0' ≤ digitChar k ∧ digitChar k ≤ '9') (n % 10) h

/-- Helper: padDigits renders exactly its width. -/
theorem padDigits_length : ∀ (w n : Nat), (padDigits w n).length = w := by
  intro w
  induction w with
  | zero => intro n; rfl
  | succ v ih => intro n; simp [padDigits, ih]

/-- Helper: every character of padDigits is a decimal digit. -/
theorem mem_padDigits_digit : ∀ (w n : Nat), ∀ c ∈ padDigits w n, '0' ≤ c ∧ c ≤ '9' := by
  intro w
  induction w with
  | zero => intro n c hc; cases hc
  | succ v ih =>
    intro n c hc
    rcases List.mem_cons.mp hc with rfl | h
    · exact digitChar_digit _
    · exact ih _ c h

/-- Helper: a strict lexicographic comparison between equal-length lists
survives appending arbitrary tails on both sides. -/
theorem lex_append_of_length_eq {α : Type} {r : α → α → Prop} {u v : List α}
    (hlex : List.Lex r u v) :
    u.length = v.length → ∀ (a b : List α), List.Lex r (u ++ a) (v ++ b) := by
  induction hlex with
  | nil =>
    intro hlen
    simp at hlen
  | rel h =>
    intro _ x y
    exact List.Lex.rel h
  | cons h ih =>
    intro hlen x y
    exact List.Lex.cons (ih (by simpa using hlen) x y)

/-- Helper: fixed-width rendering is strictly monotone below its
capacity. -/
theorem padDigits_lex : ∀ (w a b : Nat), a < b → b < 10 ^ w →
    List.Lex (· < ·) (padDigits w a) (padDigits w b) := by
  intro w
  induction w with
  | zero =>
    intro a b hab hb
    simp at hb
    omega
  | succ v ih =>
    intro a b hab hb
    have hpow : (0 : Nat) < 10 ^ v := Nat.pos_pow_of_pos v (by decide)
    rw [pow_succ] at hb
    rcases Nat.lt_trichotomy (a / 10 ^ v) (b / 10 ^ v) with hq | hq | hq
    · have hbq : b / 10 ^ v < 10 := by
        rw [Nat.div_lt_iff_lt_mul hpow]
        omega
      have haq : a / 10 ^ v < 10 :=
        lt_of_le_of_lt (Nat.div_le_div_right (le_of_lt hab)) hbq
      simp only [padDigits]
      exact List.Lex.rel (digitChar_bound_lt _ haq _ hbq hq)
    · have ha' := Nat.div_add_mod a (10 ^ v)
      have hb' := Nat.div_add_mod b (10 ^ v)
      rw [← hq] at hb'
      have hmod : a % 10 ^ v < b % 10 ^ v := by omega
      have hmodb : b % 10 ^ v < 10 ^ v := Nat.mod_lt _ hpow
      simp only [padDigits, hq]
      exact List.Lex.cons (ih _ _ hmod hmodb)
    · exact absurd hq (not_lt.mpr (Nat.div_le_div_right (le_of_lt hab)))

/-- Helper: the colon-and-dot replacement leaves digits unchanged. -/
theorem sanitizeTimeChar_digit {c : Char} (h0 : '0' ≤ c) (h9 : c ≤ '9') :
    sanitizeTimeChar c = c := by
  unfold sanitizeTimeChar
  rw [if_neg]
  rintro (rfl | rfl)
  · exact absurd h9 (by decide)
  · exact absurd h0 (by decide)

/-- Helper: the colon-and-dot replacement leaves digit blocks unchanged. -/
theorem map_sanitize_padDigits (w n : Nat) :
    (padDigits w n).map sanitizeTimeChar = padDigits w n := by
  have hdig := mem_padDigits_digit w n
  calc (padDigits w n).map sanitizeTimeChar
      = (padDigits w n).map id :=
        List.map_congr_left fun c hc =>
          sanitizeTimeChar_digit (hdig c hc).1 (hdig c hc).2
    _ = padDigits w n := List.map_id _

/-- Helper: sanitizing the rendered ISO string yields exactly the
dash-separated timestamp YYYY-MM-DDTHH-MM-SS-mmmZ. -/
theorem timestampSanitize_toISO (t : DateTime) :
    (timestampSanitize (toISOString t)).data = sanitizedTimestampData t := by
  show (toISOStringData t).map sanitizeTimeChar = sanitizedTimestampData t
  have hdash : sanitizeTimeChar '-' = '-' := by decide
  have hT : sanitizeTimeChar 'T' = 'T' := by decide
  have hcolon : sanitizeTimeChar ':' = '-' := by decide
  have hdot : sanitizeTimeChar '.' = '-' := by decide
  have hZ : sanitizeTimeChar 'Z' = 'Z' := by decide
  unfold toISOStringData sanitizedTimestampData
  simp only [List.map_append, List.map_cons, List.map_nil, map_sanitize_padDigits,
    hdash, hT, hcolon, hdot, hZ]

/-- Helper: the sanitized timestamp always renders 24 characters. -/
theorem sanitizedTimestampData_length (t : DateTime) :
    (sanitizedTimestampData t).length = 24 := by
  simp [sanitizedTimestampData, padDigits_length]

/-- Helper: a chronologically earlier valid instant renders a
lexicographically smaller sanitized timestamp. -/
theorem dtLt_sanitized_lex {t1 t2 : DateTime} (h2 : t2.valid) (hlt : dtLt t1 t2) :
    List.Lex (· < ·) (sanitizedTimestampData t1) (sanitizedTimestampData t2) := by
  obtain ⟨hy2, hmo2, hd2, hh2, hmi2, hs2, hms2⟩ := h2
  have hp4 : (10 : Nat) ^ 4 = 10000 := by norm_num
  have hp2 : (10 : Nat) ^ 2 = 100 := by norm_num
  have hp3 : (10 : Nat) ^ 3 = 1000 := by norm_num
  unfold sanitizedTimestampData
  rcases hlt with hy | ⟨hy, hmo | ⟨hmo, hd | ⟨hd, hh | ⟨hh, hmi | ⟨hmi, hs | ⟨hs, hms⟩⟩⟩⟩⟩⟩
  · refine lex_append_of_length_eq ?_ (by simp [padDigits_length]) _ _
    refine lex_append_of_length_eq ?_ (by simp [padDigits_length]) _ _
    refine lex_append_of_length_eq ?_ (by simp [padDigits_length]) _ _
    refine lex_append_of_length_eq ?_ (by simp [padDigits_length]) _ _
    refine lex_append_of_length_eq ?_ (by simp [padDigits_length]) _ _
    refine lex_append_of_length_eq ?_ (by simp [padDigits_length]) _ _
    refine lex_append_of_length_eq ?_ (by simp [padDigits_length]) _ _
    exact padDigits_lex 4 _ _ hy (hp4 ▸ hy2)
  · rw [hy]
    refine lex_append_of_length_eq ?_ (by simp [padDigits_length]) _ _
    refine lex_append_of_length_eq ?_ (by simp [padDigits_length]) _ _
    refine lex_append_of_length_eq ?_ (by simp [padDigits_length]) _ _
    refine lex_append_of_length_eq ?_ (by simp [padDigits_length]) _ _
    refine lex_append_of_length_eq ?_ (by simp [padDigits_length]) _ _
    refine lex_append_of_length_eq ?_ (by simp [padDigits_length]) _ _
    refine List.Lex.append_left _ (List.Lex.cons ?_) _
    exact padDigits_lex 2 _ _ hmo (hp2 ▸ hmo2)
  · rw [hy, hmo]
    refine lex_append_of_length_eq ?_ (by simp [padDigits_length]) _ _
    refine lex_append_of_length_eq ?_ (by simp [padDigits_length]) _ _
    refine lex_append_of_length_eq ?_ (by simp [padDigits_length]) _ _
    refine lex_append_of_length_eq ?_ (by simp [padDigits_length]) _ _
    refine lex_append_of_length_eq ?_ (by simp [padDigits_length]) _ _
    refine List.Lex.append_left _ (List.Lex.cons ?_) _
    exact padDigits_lex 2 _ _ hd (hp2 ▸ hd2)
  · rw [hy, hmo, hd]
    refine lex_append_of_length_eq ?_ (by simp [padDigits_length]) _ _
    refine lex_append_of_length_eq ?_ (by simp [padDigits_length]) _ _
    refine lex_append_of_length_eq ?_ (by simp [padDigits_length]) _ _
    refine lex_append_of_length_eq ?_ (by simp [padDigits_length]) _ _
    refine List.Lex.append_left _ (List.Lex.cons ?_) _
    exact padDigits_lex 2 _ _ hh (hp2 ▸ hh2)
  · rw [hy, hmo, hd, hh]
    refine lex_append_of_length_eq ?_ (by simp [padDigits_length]) _ _
    refine lex_append_of_length_eq ?_ (by simp [padDigits_length]) _ _
    refine lex_append_of_length_eq ?_ (by simp [padDigits_length]) _ _
    refine List.Lex.append_left _ (List.Lex.cons ?_) _
    exact padDigits_lex 2 _ _ hmi (hp2 ▸ hmi2)
  · rw [hy, hmo, hd, hh, hmi]
    refine lex_append_of_length_eq ?_ (by simp [padDigits_length]) _ _
    refine lex_append_of_length_eq ?_ (by simp [padDigits_length]) _ _
    refine List.Lex.append_left _ (List.Lex.cons ?_) _
    exact padDigits_lex 2 _ _ hs (hp2 ▸ hs2)
  · rw [hy, hmo, hd, hh, hmi, hs]
    refine lex_append_of_length_eq ?_ (by simp [padDigits_length]) _ _
    refine List.Lex.append_left _ (List.Lex.cons ?_) _
    exact padDigits_lex 3 _ _ hms (hp3 ▸ hms2)

/-- Helper: appending a common suffix to two filenames generated for the
same URL preserves the strict lexicographic order of their capture
instants. -/
theorem generateFilename_lex (u : UrlParts) {t1 t2 : DateTime}
    (h2 : t2.valid) (hlt : dtLt t1 t2) (s : List Char) :
    List.Lex (· < ·)
      ((generateFilename u t1).data ++ s) ((generateFilename u t2).data ++ s) := by
  have e : ∀ t : DateTime, (generateFilename u t).data ++ s =
      (sanitizePathData u.pathname.data ++ "_".data) ++
        (sanitizedTimestampData t ++ s) := by
    intro t
    simp [generateFilename, String.data_append, timestampSanitize_toISO,
      List.append_assoc]
  rw [e t1, e t2]
  exact List.Lex.append_left _
    (lex_append_of_length_eq (dtLt_sanitized_lex h2 hlt)
      (by simp [sanitizedTimestampData_length]) s s) _

/-- Helper: any artifact path of the form prefix, generated filename,
suffix is strictly increasing in the capture instant. -/
theorem capturePath_lt (p s : String) (u : UrlParts) {t1 t2 : DateTime}
    (h2 : t2.valid) (hlt : dtLt t1 t2) :
    p ++ (generateFilename u t1 ++ s) < p ++ (generateFilename u t2 ++ s) := by
  rw [String.lt_iff_toList_lt]
  show List.Lex (· < ·)
    (p ++ (generateFilename u t1 ++ s)).data (p ++ (generateFilename u t2 ++ s)).data
  simp only [String.data_append]
  exact List.Lex.append_left _ (generateFilename_lex u h2 hlt s.data) _

/-- Helper: merge sort of a two-element list. -/
theorem mergeSort_pair {α : Type} (le : α → α → Bool) (a b : α) :
    List.mergeSort [a, b] le = if le a b then [a, b] else [b, a] := by
  simp [List.mergeSort, List.merge]

/-- Claim C6: two captures of the same URL at distinct instants (the
later one chronologically after the earlier by at least a millisecond,
hence a strictly larger calendar decomposition) produce distinct HTML
and screenshot artifact paths, with the later instant lexicographically
greater, and getLatestFile run on the two generated file names returns
the later capture. -/
theorem C6_capture_ordering (cwd dirPath : String) (u : UrlParts)
    (t1 t2 : DateTime) (_h1 : t1.valid) (h2 : t2.valid) (hlt : dtLt t1 t2) :
    htmlPath cwd u t1 ≠ htmlPath cwd u t2 ∧
    htmlPath cwd u t1 < htmlPath cwd u t2 ∧
    screenshotPath cwd u t1 ≠ screenshotPath cwd u t2 ∧
    screenshotPath cwd u t1 < screenshotPath cwd u t2 ∧
    getLatestFile dirPath
        [generateFilename u t1 ++ ".html", generateFilename u t2 ++ ".html"]
        ".html" =
      some (dirPath ++ "/" ++ (generateFilename u t2 ++ ".html")) := by
  have hhtmlEq : ∀ t : DateTime, htmlPath cwd u t =
      (cwd ++ "/output/" ++ getDomainFolder u ++ "/html/") ++
        (generateFilename u t ++ ".html") := by
    intro t
    unfold htmlPath
    rw [String.append_assoc]
  have hshotEq : ∀ t : DateTime, screenshotPath cwd u t =
      (cwd ++ "/output/" ++ getDomainFolder u ++ "/screenshots/") ++
        (generateFilename u t ++ ".png") := by
    intro t
    unfold screenshotPath
    rw [String.append_assoc]
  have hhtmlLt : htmlPath cwd u t1 < htmlPath cwd u t2 := by
    rw [hhtmlEq t1, hhtmlEq t2]
    exact capturePath_lt _ ".html" u h2 hlt
  have hshotLt : screenshotPath cwd u t1 < screenshotPath cwd u t2 := by
    rw [hshotEq t1, hshotEq t2]
    exact capturePath_lt _ ".png" u h2 hlt
  have hlatest : getLatestFile dirPath
      [generateFilename u t1 ++ ".html", generateFilename u t2 ++ ".html"]
      ".html" =
      some (dirPath ++ "/" ++ (generateFilename u t2 ++ ".html")) := by
    have hsuf : ∀ g : String,
        (decide (".html".data <:+ (g ++ ".html").data)) = true := by
      intro g
      apply decide_eq_true
      rw [String.data_append]
      exact List.suffix_append _ _
    have hpathsLt : dirPath ++ "/" ++ (generateFilename u t1 ++ ".html") <
        dirPath ++ "/" ++ (generateFilename u t2 ++ ".html") :=
      capturePath_lt (dirPath ++ "/") ".html" u h2 hlt
    have hle : (decide
        ((dirPath ++ "/" ++ (generateFilename u t1 ++ ".html")) ≤
          (dirPath ++ "/" ++ (generateFilename u t2 ++ ".html")))) = true :=
      decide_eq_true (le_of_lt hpathsLt)
    unfold getLatestFile
    simp only [List.filter, hsuf, List.map_cons, List.map_nil, List.isEmpty_cons,
      Bool.false_eq_true, if_false, mergeSort_pair, hle, if_true, List.getLast?]
    rfl
  exact ⟨ne_of_lt hhtmlLt, hhtmlLt, ne_of_lt hshotLt, hshotLt, hlatest⟩

/-- Claim C6 witness: the ordering and getLatestFile conclusions on two
concrete instants one millisecond apart. -/
theorem C6_capture_ordering_witness :
    DateTime.valid captureInstantA ∧ DateTime.valid captureInstantB ∧
    dtLt captureInstantA captureInstantB ∧
    htmlPath "/w" exampleUrl captureInstantA <
      htmlPath "/w" exampleUrl captureInstantB ∧
    getLatestFile "d"
        [generateFilename exampleUrl captureInstantA ++ ".html",
         generateFilename exampleUrl captureInstantB ++ ".html"] ".html" =
      some ("d" ++ "/" ++ (generateFilename exampleUrl captureInstantB ++ ".html")) :=
  ⟨by decide, by decide, by decide,
   (C6_capture_ordering "/w" "d" exampleUrl captureInstantA captureInstantB
      (by decide) (by decide) (by decide)).2.1,
   (C6_capture_ordering "/w" "d" exampleUrl captureInstantA captureInstantB
      (by decide) (by decide) (by decide)).2.2.2.2⟩

/-- Helper: filename safety distributes over list append. -/
theorem forall_safe_append {l1 l2 : List Char}
    (h1 : ∀ c ∈ l1, isFilenameSafe c = true)
    (h2 : ∀ c ∈ l2, isFilenameSafe c = true) :
    ∀ c ∈ l1 ++ l2, isFilenameSafe c = true := by
  intro c hc
  rcases List.mem_append.mp hc with h | h
  · exact h1 c h
  · exact h2 c h

/-- Helper: filename safety distributes over cons. -/
theorem forall_safe_cons {a : Char} {l : List Char}
    (ha : isFilenameSafe a = true)
    (hl : ∀ c ∈ l, isFilenameSafe c = true) :
    ∀ c ∈ a :: l, isFilenameSafe c = true := by
  intro c hc
  rcases List.mem_cons.mp hc with rfl | h
  · exact ha
  · exact hl c h

/-- Helper: every character of the sanitized timestamp is filename
safe. -/
theorem mem_sanitizedTimestamp_safe (t : DateTime) :
    ∀ c ∈ sanitizedTimestampData t, isFilenameSafe c = true := by
  have hdig : ∀ (w n : Nat), ∀ c ∈ padDigits w n, isFilenameSafe c = true := by
    intro w n c h
    have hb := mem_padDigits_digit w n c h
    exact decide_eq_true (Or.inr (Or.inr (Or.inl hb)))
  have hnil : ∀ c ∈ ([] : List Char), isFilenameSafe c = true := by
    intro c hc
    cases hc
  unfold sanitizedTimestampData
  refine forall_safe_append
    (forall_safe_append
      (forall_safe_append
        (forall_safe_append
          (forall_safe_append
            (forall_safe_append
              (forall_safe_append (hdig 4 _)
                (forall_safe_cons (by decide) (hdig 2 _)))
              (forall_safe_cons (by decide) (hdig 2 _)))
            (forall_safe_cons (by decide) (hdig 2 _)))
          (forall_safe_cons (by decide) (hdig 2 _)))
        (forall_safe_cons (by decide) (hdig 2 _)))
      (forall_safe_cons (by decide) (hdig 3 _)))
    (forall_safe_cons (by decide) hnil)

/-- Claim C10: every character of the generated filename stem is in the
class [a-zA-Z0-9_-]: slashes of the pathname become underscores, every
other unsafe pathname character is removed, and the sanitized timestamp
consists of digits, hyphens, T and Z — so no artifact filename contains
a path separator or other filesystem-unsafe character. -/
theorem C10_filename_charset (u : UrlParts) (t : DateTime) :
    ∀ c ∈ (generateFilename u t).data, isFilenameSafe c = true := by
  have e : (generateFilename u t).data =
      (sanitizePathData u.pathname.data ++ "_".data) ++ sanitizedTimestampData t := by
    simp [generateFilename, String.data_append, timestampSanitize_toISO,
      List.append_assoc]
  rw [e]
  refine forall_safe_append (forall_safe_append ?_ ?_)
    (mem_sanitizedTimestamp_safe t)
  · intro c hc
    unfold sanitizePathData at hc
    exact List.of_mem_filter hc
  · intro c hc
    have hcu : c = '_' := by simpa using hc
    subst hcu
    decide

/-- Claim C10 witness: the underscore of a concrete generated filename
is in the safe class. -/
theorem C10_filename_charset_witness :
    '_' ∈ (generateFilename exampleUrl captureInstantA).data ∧
      isFilenameSafe '_' = true :=
  ⟨by decide, C10_filename_charset exampleUrl captureInstantA '_' (by decide)⟩

end SiteGenie
